import Mathlib

/-!
Shallow embedding of the everoute datapath manager and policy bridge
(`src/unnamed/part_001` and `src/pkg/agent/datapath/policyBridge.go`).

Conventions of the embedding:
* Go machine integers become `Nat` with an explicit `% 2 ^ w` at the points
  where the Go code can overflow or truncate (`uint64` round numbers,
  the `uint16` cast of a rule priority).
* The external OpenFlow client library (`ofctrl`) is modelled by its happy
  path: `Table.NewFlow` allocates a fresh flow id and a pending flow, and
  `Flow.Next` installs the pending flow on the bridge.  A call of a method
  on a `nil` table pointer, which panics in Go, is modelled by the
  distinguished outcome `AMSOutcome.nilTableDeref`.
* Mutex acquisition, switch-connection waiting and logging are dropped:
  every operation is modelled in the state where all bridges are connected.
* Go map iteration order is unspecified; maps are modelled as association
  lists, which fixes one iteration order.
-/

namespace Everoute

/-! ### Constants (src/unnamed/part_001 lines 49-120, policyBridge.go lines 16-29) -/

def POLICY_TIER0 : Nat := 50
def POLICY_TIER1 : Nat := 100
def POLICY_TIER2 : Nat := 150

def POLICY_DIRECTION_OUT : Nat := 0
def POLICY_DIRECTION_IN : Nat := 1

def PROTOCOL_IP : Nat := 0x0800

def INPUT_TABLE : Nat := 0
def CT_STATE_TABLE : Nat := 1
def DIRECTION_SELECTION_TABLE : Nat := 10
def EGRESS_TIER0_TABLE : Nat := 20
def EGRESS_TIER1_TABLE : Nat := 25
def EGRESS_TIER2_TABLE : Nat := 30
def INGRESS_TIER0_TABLE : Nat := 50
def INGRESS_TIER1_TABLE : Nat := 55
def INGRESS_TIER2_TABLE : Nat := 60
def CT_COMMIT_TABLE : Nat := 70
def SFC_POLICY_TABLE : Nat := 80
def POLICY_FORWARDING_TABLE : Nat := 90

def datapathRestartRound : String := "datapathRestartRound"

/-! ### IPv4 addresses and parsing

`ParseIPAddrMaskString` (src/unnamed/part_001 lines 841-862) delegates to the
Go standard library `net.ParseIP` / `net.ParseCIDR`, which is external to the
repository.  The model below implements their IPv4 dotted-quad behaviour:
four decimal fields in 0..255 separated by dots, an optional `/bits` suffix
with bits in 0..32 for CIDR notation.  (IPv6 literals are outside the model.)
-/

structure IPv4 where
  b0 : Nat
  b1 : Nat
  b2 : Nat
  b3 : Nat
deriving DecidableEq, Repr

/-- Splits a character list on a separator character; the list of pieces is
never empty. -/
def splitOnChar (sep : Char) : List Char → List (List Char)
  | [] => [[]]
  | c :: rest =>
    if c == sep then [] :: splitOnChar sep rest
    else
      match splitOnChar sep rest with
      | [] => [[c]]
      | h :: t => (c :: h) :: t

/-- Decimal numeral parser: nonempty all-digit character list to its value. -/
def parseDecimalChars (cs : List Char) : Option Nat :=
  if cs.isEmpty then none
  else if cs.all Char.isDigit then
    some (cs.foldl (fun acc c => acc * 10 + (c.toNat - 48)) 0)
  else none

/-- Decimal numeral parser on strings. -/
def parseDecimal (s : String) : Option Nat :=
  parseDecimalChars s.data

/-- Model of a Go `net` IPv4 address field: decimal, at most 255. -/
def parseIPv4Field (cs : List Char) : Option Nat :=
  match parseDecimalChars cs with
  | none => none
  | some n => if n ≤ 255 then some n else none

/-- Model of Go `net.ParseIP` restricted to IPv4 dotted-quad form. -/
def parseIPv4 (s : String) : Option IPv4 :=
  match splitOnChar '.' s.data with
  | [a, b, c, d] =>
    match parseIPv4Field a, parseIPv4Field b, parseIPv4Field c, parseIPv4Field d with
    | some x, some y, some z, some w => some ⟨x, y, z, w⟩
    | _, _, _, _ => none
  | _ => none

/-- The IPv4 mask with the first `n` bits set (`n ≤ 32`), as four bytes. -/
def maskOfBits (n : Nat) : IPv4 :=
  let m := 2 ^ 32 - 2 ^ (32 - n)
  ⟨m / 2 ^ 24 % 256, m / 2 ^ 16 % 256, m / 2 ^ 8 % 256, m % 256⟩

/-- Model of Go `net.ParseCIDR` restricted to IPv4: returns the literal
address from the string together with the prefix length. -/
def parseCIDR (s : String) : Option (IPv4 × Nat) :=
  match splitOnChar '/' s.data with
  | [ipPart, maskPart] =>
    match parseIPv4 (String.mk ipPart), parseDecimalChars maskPart with
    | some ip, some bits => if bits ≤ 32 then some (ip, bits) else none
    | _, _ => none
  | _ => none

def IP_BROADCAST_MASK : IPv4 := ⟨255, 255, 255, 255⟩

/-- `ParseIPAddrMaskString` (src/unnamed/part_001 lines 841-862): a string
with `/` is parsed as CIDR, yielding the literal address and the CIDR mask;
otherwise as a literal IP with mask 255.255.255.255. -/
def ParseIPAddrMaskString (ipAddr : String) : Except String (IPv4 × IPv4) :=
  if ipAddr.data.contains '/' then
    match parseCIDR ipAddr with
    | none => Except.error "error parsing cidr"
    | some (ipDav, bits) => Except.ok (ipDav, maskOfBits bits)
  else
    match parseIPv4 ipAddr with
    | none => Except.error "failed to parse ip address"
    | some ipDa => Except.ok (ipDa, IP_BROADCAST_MASK)

/-! ### Policy rules (src/unnamed/part_001 lines 205-229) -/

structure EveroutePolicyRule where
  RuleID : String
  Priority : Nat
  SrcIPAddr : String
  DstIPAddr : String
  IPProtocol : Nat
  SrcPort : Nat
  SrcPortMask : Nat
  DstPort : Nat
  DstPortMask : Nat
  Action : String
deriving DecidableEq, Repr

/-- `RuleIsSame` (src/unnamed/part_001 lines 778-780): `reflect.DeepEqual`
on the two rule values, i.e. structural equality. -/
def RuleIsSame (r1 r2 : EveroutePolicyRule) : Bool :=
  decide (r1 = r2)

/-- A `FlowEntry` (src/unnamed/part_001 lines 218-222); the `*ofctrl.Table`
pointer is represented by the table's numeric id. -/
structure FlowEntry where
  TableId : Nat
  Priority : Nat
  FlowID : Nat
deriving DecidableEq, Repr

/-! ### Policy bridge flow state (model of the external ofctrl library) -/

inductive FlowTarget where
  | toTable (t : Nat)
  | drop
  | output (port : Nat)
deriving DecidableEq, Repr

/-- An installed OpenFlow flow: table, the `ofctrl.FlowMatch` fields that
`AddMicroSegmentRule` fills in (policyBridge.go lines 437-453), the action
target, and the allocated flow id. -/
structure InstalledFlow where
  tableId : Nat
  priority : Nat
  ethertype : Nat
  ipDa : Option IPv4
  ipDaMask : Option IPv4
  ipSa : Option IPv4
  ipSaMask : Option IPv4
  ipProto : Nat
  tcpSrcPort : Nat
  tcpSrcPortMask : Nat
  tcpDstPort : Nat
  tcpDstPortMask : Nat
  udpSrcPort : Nat
  udpSrcPortMask : Nat
  udpDstPort : Nat
  udpDstPortMask : Nat
  target : FlowTarget
  flowId : Nat
deriving DecidableEq, Repr

/-- State of one POLICY bridge: the flows installed on the switch and the
next flow id the (modelled) ofctrl library will allocate. -/
structure PolicyBridgeState where
  installedFlows : List InstalledFlow
  nextFlowId : Nat
deriving DecidableEq, Repr

/-- `GetTierTable` (policyBridge.go lines 359-397).  Table pointers are
represented by `Option Nat` table ids; the Go function leaves both pointers
`nil` and returns a `nil` error when the direction is neither
`POLICY_DIRECTION_OUT` (0) nor `POLICY_DIRECTION_IN` (1). -/
def GetTierTable (direction tier : Nat) : Except String (Option Nat × Option Nat) :=
  match direction with
  | 0 =>
    if tier == POLICY_TIER0 then Except.ok (some EGRESS_TIER0_TABLE, some EGRESS_TIER1_TABLE)
    else if tier == POLICY_TIER1 then Except.ok (some EGRESS_TIER1_TABLE, some CT_COMMIT_TABLE)
    else if tier == POLICY_TIER2 then Except.ok (some EGRESS_TIER2_TABLE, some CT_COMMIT_TABLE)
    else Except.error "unknow policy tier"
  | 1 =>
    if tier == POLICY_TIER0 then Except.ok (some INGRESS_TIER0_TABLE, some INGRESS_TIER1_TABLE)
    else if tier == POLICY_TIER1 then Except.ok (some INGRESS_TIER1_TABLE, some CT_COMMIT_TABLE)
    else if tier == POLICY_TIER2 then Except.ok (some INGRESS_TIER2_TABLE, some CT_COMMIT_TABLE)
    else Except.error "unknow policy tier"
  | _ => Except.ok (none, none)

/-- The `if rule.DstIPAddr != "" { ParseIPAddrMaskString ... }` pattern of
`AddMicroSegmentRule` (policyBridge.go lines 418-434): an empty string
leaves the address and mask pointers nil. -/
def parseOptIPField (s : String) : Except String (Option IPv4 × Option IPv4) :=
  if s == "" then Except.ok (none, none)
  else
    match ParseIPAddrMaskString s with
    | Except.error e => Except.error e
    | Except.ok (ip, mask) => Except.ok (some ip, some mask)

/-- Outcome of `AddMicroSegmentRule`: a returned `FlowEntry`, a returned Go
error, or the nil-pointer dereference the Go code performs when it calls
`NewFlow` on a `nil` table (unknown direction). -/
inductive AMSOutcome where
  | ok (fe : FlowEntry)
  | err (msg : String)
  | nilTableDeref
deriving DecidableEq, Repr

/-- `AddMicroSegmentRule` (policyBridge.go lines 399-482).  Returns the
outcome together with the bridge state after the call; on the
unknown-action error the pending flow was created (the flow id counter has
advanced) but nothing was installed on the switch. -/
def PolicyBridge.AddMicroSegmentRule (p : PolicyBridgeState) (rule : EveroutePolicyRule)
    (direction tier : Nat) : AMSOutcome × PolicyBridgeState :=
  match GetTierTable direction tier with
  | Except.error _ => (AMSOutcome.err "failed get policy table", p)
  | Except.ok (policyTableOpt, nextTableOpt) =>
    match parseOptIPField rule.DstIPAddr with
    | Except.error e => (AMSOutcome.err e, p)
    | Except.ok (ipDa, ipDaMask) =>
      match parseOptIPField rule.SrcIPAddr with
      | Except.error e => (AMSOutcome.err e, p)
      | Except.ok (ipSa, ipSaMask) =>
        match policyTableOpt with
        | none => (AMSOutcome.nilTableDeref, p)
        | some policyTable =>
          let flowId := p.nextFlowId
          let p1 : PolicyBridgeState := { p with nextFlowId := p.nextFlowId + 1 }
          let baseFlow : InstalledFlow :=
            { tableId := policyTable
              priority := rule.Priority % 2 ^ 16
              ethertype := PROTOCOL_IP
              ipDa := ipDa
              ipDaMask := ipDaMask
              ipSa := ipSa
              ipSaMask := ipSaMask
              ipProto := rule.IPProtocol
              tcpSrcPort := rule.SrcPort
              tcpSrcPortMask := rule.SrcPortMask
              tcpDstPort := rule.DstPort
              tcpDstPortMask := rule.DstPortMask
              udpSrcPort := rule.SrcPort
              udpSrcPortMask := rule.SrcPortMask
              udpDstPort := rule.DstPort
              udpDstPortMask := rule.DstPortMask
              target := FlowTarget.drop
              flowId := flowId }
          if rule.Action == "allow" then
            match nextTableOpt with
            | none => (AMSOutcome.nilTableDeref, p1)
            | some nextTable =>
              (AMSOutcome.ok { TableId := policyTable, Priority := rule.Priority % 2 ^ 16, FlowID := flowId },
               { p1 with installedFlows :=
                  p1.installedFlows ++ [{ baseFlow with target := FlowTarget.toTable nextTable }] })
          else if rule.Action == "deny" then
            (AMSOutcome.ok { TableId := policyTable, Priority := rule.Priority % 2 ^ 16, FlowID := flowId },
             { p1 with installedFlows := p1.installedFlows ++ [baseFlow] })
          else (AMSOutcome.err "unknown action in rule", p1)

/-! ### Endpoints and the LOCAL bridge (src/unnamed/part_001 lines 195-203) -/

/-- An `Endpoint` (src/unnamed/part_001 lines 195-203); the `net.IP` byte
slices are byte lists. -/
structure Endpoint where
  InterfaceName : String
  IPAddr : List Nat
  IPv6Addr : List Nat
  PortNo : Nat
  MacAddrStr : String
  VlanID : Nat
  BridgeName : String
deriving DecidableEq, Repr

/-- A per-endpoint flow on a LOCAL bridge. -/
inductive LocalEndpointFlow where
  | antiSpoof (mac : String) (port : Nat)
  | l2Forward (mac : String) (port : Nat) (idleTimeout hardTimeout : Nat)
deriving DecidableEq, Repr

structure LocalBridgeState where
  endpointFlows : List LocalEndpointFlow
deriving DecidableEq, Repr

/-- Modelled from the spec: `LocalBridge.AddLocalEndpoint` (localBridge.go is
not under src/; spec section 4.2) installs a MAC-source anti-spoofing flow
pinning the endpoint MAC to its port and a MAC-destination forwarding flow
with 300 s idle/hard timeouts. -/
def LocalBridge.AddLocalEndpoint (b : LocalBridgeState) (endpoint : Endpoint) : LocalBridgeState :=
  { endpointFlows :=
      b.endpointFlows ++
        [LocalEndpointFlow.antiSpoof endpoint.MacAddrStr endpoint.PortNo,
         LocalEndpointFlow.l2Forward endpoint.MacAddrStr endpoint.PortNo 300 300] }

/-- Modelled from the spec: `LocalBridge.RemoveLocalEndpoint` (localBridge.go
is not under src/; spec section 4.2) deletes both per-endpoint flows. -/
def LocalBridge.RemoveLocalEndpoint (b : LocalBridgeState) (endpoint : Endpoint) : LocalBridgeState :=
  { endpointFlows :=
      b.endpointFlows.filter fun f =>
        match f with
        | LocalEndpointFlow.antiSpoof mac _ => !(mac == endpoint.MacAddrStr)
        | LocalEndpointFlow.l2Forward mac _ _ _ => !(mac == endpoint.MacAddrStr) }

/-! ### Association-list helpers (Go maps and the concurrent endpoint map) -/

def alistGet {α : Type} (l : List (String × α)) (k : String) : Option α :=
  (l.find? fun p => p.1 == k).map fun p => p.2

def alistSet {α : Type} (l : List (String × α)) (k : String) (v : α) : List (String × α) :=
  if (l.find? fun p => p.1 == k).isSome then
    l.map fun p => if p.1 == k then (k, v) else p
  else l ++ [(k, v)]

def alistRemove {α : Type} (l : List (String × α)) (k : String) : List (String × α) :=
  l.filter fun p => !(p.1 == k)

def alistUpdate {α : Type} (l : List (String × α)) (k : String) (f : α → α) : List (String × α) :=
  l.map fun p => if p.1 == k then (p.1, f p.2) else p

/-! ### Datapath manager state (src/unnamed/part_001 lines 154-229) -/

/-- An `EveroutePolicyRuleEntry` (src/unnamed/part_001 lines 224-229). -/
structure EveroutePolicyRuleEntry where
  EveroutePolicyRule : EveroutePolicyRule
  Direction : Nat
  Tier : Nat
  RuleFlowMap : List (String × FlowEntry)
deriving DecidableEq, Repr

/-- The mutable state of a `DpManager` relevant to the verified operations:
the VDS configuration, the local endpoint registry, the rules registry, and
the per-VDS LOCAL and POLICY bridge flow states.  `BridgeChainMap` is keyed
by the same VDS ids as `ManagedVDSMap`. -/
structure DpState where
  ManagedVDSMap : List (String × String)
  localEndpointDB : List (String × Endpoint)
  Rules : List (String × EveroutePolicyRuleEntry)
  localBridges : List (String × LocalBridgeState)
  policyBridges : List (String × PolicyBridgeState)
deriving DecidableEq, Repr

/-- Applies a LOCAL-bridge operation to the bridge of one VDS. -/
def updateLocalBridge (st : DpState) (vdsID : String) (f : LocalBridgeState → LocalBridgeState) : DpState :=
  { st with localBridges := alistUpdate st.localBridges vdsID f }

/-! ### Manager endpoint operations (src/unnamed/part_001 lines 612-711) -/

/-- `DpManager.AddLocalEndpoint` (src/unnamed/part_001 lines 612-641): find
the VDS whose bridge name matches; a duplicate interface name logs and
returns success; otherwise the endpoint is stored in the registry first and
then added to the LOCAL bridge (modelled error-free). -/
def DpManager.AddLocalEndpoint (st : DpState) (endpoint : Endpoint) : Option String × DpState :=
  match st.ManagedVDSMap.find? (fun p => p.2 == endpoint.BridgeName) with
  | none => (none, st)
  | some (vdsID, _) =>
    if (alistGet st.localEndpointDB endpoint.InterfaceName).isSome then (none, st)
    else
      let st1 : DpState :=
        { st with localEndpointDB := alistSet st.localEndpointDB endpoint.InterfaceName endpoint }
      (none, updateLocalBridge st1 vdsID (fun b => LocalBridge.AddLocalEndpoint b endpoint))

/-- `DpManager.UpdateLocalEndpoint` (src/unnamed/part_001 lines 643-683):
copy the learned IP from the cached old endpoint into the new one, remove
the old endpoint from the registry and the LOCAL bridge, then check the new
name and add the new endpoint.  The duplicate-new-name check happens after
the old endpoint was already removed. -/
def DpManager.UpdateLocalEndpoint (st : DpState) (newEndpoint oldEndpoint : Endpoint) :
    Option String × DpState :=
  match st.ManagedVDSMap.find? (fun p => p.2 == newEndpoint.BridgeName) with
  | none => (none, st)
  | some (vdsID, _) =>
    match alistGet st.localEndpointDB oldEndpoint.InterfaceName with
    | none => (some "old local endpoint not found", st)
    | some ep =>
      let newEP : Endpoint := { newEndpoint with IPAddr := ep.IPAddr }
      let st1 : DpState :=
        { st with localEndpointDB := alistRemove st.localEndpointDB oldEndpoint.InterfaceName }
      let st2 := updateLocalBridge st1 vdsID (fun b => LocalBridge.RemoveLocalEndpoint b oldEndpoint)
      if (alistGet st2.localEndpointDB newEndpoint.InterfaceName).isSome then
        (some "new local endpoint already exists", st2)
      else
        let st3 : DpState :=
          { st2 with localEndpointDB := alistSet st2.localEndpointDB newEndpoint.InterfaceName newEP }
        (none, updateLocalBridge st3 vdsID (fun b => LocalBridge.AddLocalEndpoint b newEP))

/-- The endpoint loop of `ReplayVDSLocalEndpointFlow` (src/unnamed/part_001
lines 546-558): skip endpoints of other bridges; on the first endpoint of
the replayed bridge call the LOCAL bridge's `AddLocalEndpoint` and then
`break` out of the loop. -/
def replayLocalEndpointLoop (st : DpState) (vdsID ovsbrname : String) :
    List (String × Endpoint) → Option String × DpState
  | [] => (none, st)
  | (_, endpoint) :: rest =>
    if endpoint.BridgeName == ovsbrname then
      (none, updateLocalBridge st vdsID (fun b => LocalBridge.AddLocalEndpoint b endpoint))
    else replayLocalEndpointLoop st vdsID ovsbrname rest

/-- `DpManager.ReplayVDSLocalEndpointFlow` (src/unnamed/part_001 lines
544-561). -/
def DpManager.ReplayVDSLocalEndpointFlow (st : DpState) (vdsID : String) : Option String × DpState :=
  let ovsbrname := (alistGet st.ManagedVDSMap vdsID).getD ""
  replayLocalEndpointLoop st vdsID ovsbrname st.localEndpointDB

/-! ### Manager rule operations (src/unnamed/part_001 lines 713-776) -/

/-- One iteration of the install loop of `AddEveroutePolicyRule`: run
`AddMicroSegmentRule` on the POLICY bridge of one VDS. -/
def installRuleOnVDS (st : DpState) (vdsID : String) (rule : EveroutePolicyRule)
    (direction tier : Nat) : AMSOutcome × DpState :=
  match alistGet st.policyBridges vdsID with
  | none => (AMSOutcome.err "no policy bridge for vds", st)
  | some pb =>
    let r := PolicyBridge.AddMicroSegmentRule pb rule direction tier
    (r.1, { st with policyBridges := alistSet st.policyBridges vdsID r.2 })

/-- The per-VDS install loop of `AddEveroutePolicyRule` (src/unnamed/part_001
lines 733-740): install on each VDS, returning the first error; earlier
installs are kept (partial install is tolerated). -/
def installRuleLoop (rule : EveroutePolicyRule) (direction tier : Nat) :
    List (String × String) → DpState → List (String × FlowEntry) →
    Option String × DpState × List (String × FlowEntry)
  | [], st, acc => (none, st, acc)
  | (vdsID, _) :: rest, st, acc =>
    match installRuleOnVDS st vdsID rule direction tier with
    | (AMSOutcome.ok fe, st1) => installRuleLoop rule direction tier rest st1 (acc ++ [(vdsID, fe)])
    | (AMSOutcome.err e, st1) => (some e, st1, acc)
    | (AMSOutcome.nilTableDeref, st1) => (some "nil table dereference", st1, acc)

/-- The install-and-save path of `AddEveroutePolicyRule` (src/unnamed/part_001
lines 730-751). -/
def addRuleInstall (st : DpState) (rule : EveroutePolicyRule) (direction tier : Nat) :
    Option String × DpState :=
  match installRuleLoop rule direction tier st.ManagedVDSMap st [] with
  | (some e, st1, _) => (some e, st1)
  | (none, st1, ruleFlowMap) =>
    let entry : EveroutePolicyRuleEntry :=
      { EveroutePolicyRule := rule, Direction := direction, Tier := tier,
        RuleFlowMap := ruleFlowMap }
    (none, { st1 with Rules := alistSet st1.Rules rule.RuleID entry })

/-- `DpManager.AddEveroutePolicyRule` (src/unnamed/part_001 lines 713-752):
if a deep-equal rule with the same id already exists, return success without
touching anything; otherwise install on every VDS and save the rule entry. -/
def DpManager.AddEveroutePolicyRule (st : DpState) (rule : EveroutePolicyRule)
    (direction tier : Nat) : Option String × DpState :=
  match alistGet st.Rules rule.RuleID with
  | some entry =>
    if RuleIsSame entry.EveroutePolicyRule rule then (none, st)
    else addRuleInstall st rule direction tier
  | none => addRuleInstall st rule direction tier

/-- Model of `ofctrl.DeleteFlow` on the POLICY bridge of one VDS: remove the
installed flow identified by table, priority and flow id. -/
def deleteFlowInVDS (st : DpState) (vdsID : String) (fe : FlowEntry) : DpState :=
  { st with policyBridges := alistUpdate st.policyBridges vdsID fun pb =>
      { pb with installedFlows := pb.installedFlows.filter fun f =>
          !(f.tableId == fe.TableId && f.priority == fe.Priority && f.flowId == fe.FlowID) } }

/-- The per-VDS delete loop of `RemoveEveroutePolicyRule` (src/unnamed/part_001
lines 761-771): each iteration looks the rule up again and errors when it is
absent.  A missing per-VDS flow entry would be a nil-pointer dereference in
Go; it is modelled as an error. -/
def removeRuleLoop (rule : EveroutePolicyRule) :
    List (String × String) → DpState → Option String × DpState
  | [], st => (none, st)
  | (vdsID, _) :: rest, st =>
    match alistGet st.Rules rule.RuleID with
    | none => (some "rule not found when deleting", st)
    | some pRule =>
      match alistGet pRule.RuleFlowMap vdsID with
      | none => (some "nil flow entry dereference", st)
      | some fe => removeRuleLoop rule rest (deleteFlowInVDS st vdsID fe)

/-- `DpManager.RemoveEveroutePolicyRule` (src/unnamed/part_001 lines 754-776):
delete the per-VDS flows recorded in the rule entry, then drop the entry
from the registry. -/
def DpManager.RemoveEveroutePolicyRule (st : DpState) (rule : EveroutePolicyRule) :
    Option String × DpState :=
  match removeRuleLoop rule st.ManagedVDSMap st with
  | (some e, st1) => (some e, st1)
  | (none, st1) => (none, { st1 with Rules := alistRemove st1.Rules rule.RuleID })

/-! ### Round info (src/unnamed/part_001 lines 231-234 and 794-827) -/

structure RoundInfo where
  previousRoundNum : Nat
  curRoundNum : Nat
deriving DecidableEq, Repr

/-- Model of Go `strconv.ParseUint(s, 10, 64)`: a nonempty all-digit string
whose value fits in 64 bits; no sign prefix is permitted. -/
def parseUint64 (s : String) : Option Nat :=
  match parseDecimal s with
  | none => none
  | some n => if n < 2 ^ 64 then some n else none

/-- `getRoundInfo` (src/unnamed/part_001 lines 794-827).  The bridge's
external-ids map (read through the external ovsdb driver) is the argument.
Empty external-ids or a missing key yield round 1 (the `previousRoundNum`
field keeps its Go zero value 0); `curRoundNum = num + 1` is 64-bit
arithmetic. -/
def getRoundInfo (externalIds : List (String × String)) : Except String RoundInfo :=
  if externalIds.length == 0 then Except.ok { previousRoundNum := 0, curRoundNum := 1 }
  else
    match alistGet externalIds datapathRestartRound with
    | none => Except.ok { previousRoundNum := 0, curRoundNum := 1 }
    | some roundNum =>
      match parseUint64 roundNum with
      | none => Except.error "bad format of round number"
      | some num => Except.ok { previousRoundNum := num, curRoundNum := (num + 1) % 2 ^ 64 }

/-! ### Helper lemmas -/

theorem alistGet_map_update {α : Type} (k : String) (v : α) :
    ∀ l : List (String × α), (l.find? fun p => p.1 == k).isSome = true →
      alistGet (l.map fun p => if p.1 == k then (k, v) else p) k = some v := by
  intro l
  induction l with
  | nil => intro h; simp at h
  | cons p rest ih =>
    intro h
    by_cases hp : (p.1 == k) = true
    · unfold alistGet
      rw [List.map_cons, if_pos hp, List.find?_cons_of_pos _ (by simp)]
      rfl
    · unfold alistGet
      rw [List.map_cons, if_neg hp, List.find?_cons_of_neg _ (by simpa using hp)]
      have h' : (rest.find? fun p => p.1 == k).isSome = true := by
        rw [List.find?_cons_of_neg _ (by simpa using hp)] at h
        exact h
      simpa [alistGet] using ih h'

theorem alistGet_alistSet_self {α : Type} (k : String) (v : α) (l : List (String × α)) :
    alistGet (alistSet l k v) k = some v := by
  unfold alistSet
  by_cases h : ((l.find? fun p => p.1 == k).isSome : Prop)
  · rw [if_pos h]
    exact alistGet_map_update k v l h
  · rw [if_neg h]
    have hn : (l.find? fun p => p.1 == k) = none := by
      cases hf : l.find? fun p => p.1 == k with
      | none => rfl
      | some x => rw [hf] at h; simp at h
    unfold alistGet
    rw [List.find?_append, hn]
    simp

theorem parseOptIPField_ok (s : String)
    (h : s = "" ∨ ∃ v, ParseIPAddrMaskString s = Except.ok v) :
    ∃ pr, parseOptIPField s = Except.ok pr := by
  unfold parseOptIPField
  by_cases hs : (s == "") = true
  · exact ⟨(none, none), by rw [if_pos hs]⟩
  · rcases h with h | ⟨⟨ip, mask⟩, hv⟩
    · simp [h] at hs
    · exact ⟨(some ip, some mask), by rw [if_neg hs, hv]⟩

theorem parseOptIPField_error (s : String) (e : String)
    (hne : s ≠ "") (he : ParseIPAddrMaskString s = Except.error e) :
    parseOptIPField s = Except.error e := by
  unfold parseOptIPField
  have hs : (s == "") = false := by simp [hne]
  rw [hs, he]
  simp

/-! ### Claim C1 (code bug): the replay loop breaks after the first endpoint -/

def epC1a : Endpoint :=
  { InterfaceName := "veth1", IPAddr := [], IPv6Addr := [], PortNo := 7,
    MacAddrStr := "aa:bb:cc:dd:ee:01", VlanID := 100, BridgeName := "br0" }

def epC1b : Endpoint :=
  { InterfaceName := "veth2", IPAddr := [], IPv6Addr := [], PortNo := 8,
    MacAddrStr := "aa:bb:cc:dd:ee:02", VlanID := 100, BridgeName := "br0" }

def stC1 : DpState :=
  { ManagedVDSMap := [("v0", "br0")],
    localEndpointDB := [("veth1", epC1a), ("veth2", epC1b)],
    Rules := [],
    localBridges := [("v0", { endpointFlows := [] })],
    policyBridges := [] }

/-- Claim C1: the claim says a replay of a LOCAL bridge re-adds every
endpoint of that VDS.  The code does not: the loop in
`ReplayVDSLocalEndpointFlow` breaks after the first matching endpoint.
With two endpoints veth1 and veth2 registered on bridge br0, the replayed
LOCAL bridge ends up with only the first endpoint's two flows —
veth2's flows are missing, so the bridge does not match the registry. -/
theorem ReplayVDSLocalEndpointFlow_break_bug :
    (DpManager.ReplayVDSLocalEndpointFlow stC1 "v0").1 = none ∧
    alistGet (DpManager.ReplayVDSLocalEndpointFlow stC1 "v0").2.localBridges "v0" =
      some { endpointFlows :=
        [LocalEndpointFlow.antiSpoof "aa:bb:cc:dd:ee:01" 7,
         LocalEndpointFlow.l2Forward "aa:bb:cc:dd:ee:01" 7 300 300] } := by
  exact ⟨rfl, rfl⟩

/-! ### Claim C5: duplicate interface name is an idempotent success -/

/-- Claim C5: `AddLocalEndpoint` called with an endpoint whose interface
name is already in the endpoint registry returns a nil error and leaves the
whole manager state (registry and all bridges) unchanged. -/
theorem AddLocalEndpoint_duplicate_idempotent (st : DpState) (endpoint ep0 : Endpoint)
    (h : alistGet st.localEndpointDB endpoint.InterfaceName = some ep0) :
    DpManager.AddLocalEndpoint st endpoint = (none, st) := by
  unfold DpManager.AddLocalEndpoint
  cases hf : st.ManagedVDSMap.find? fun p => p.2 == endpoint.BridgeName with
  | none => rfl
  | some vds =>
    cases vds with
    | mk vdsID br => simp [h]

def epC5stored : Endpoint :=
  { InterfaceName := "veth9", IPAddr := [], IPv6Addr := [], PortNo := 9,
    MacAddrStr := "aa:bb:cc:dd:ee:09", VlanID := 0, BridgeName := "br0" }

def stC5 : DpState :=
  { ManagedVDSMap := [("v0", "br0")],
    localEndpointDB := [("veth9", epC5stored)],
    Rules := [],
    localBridges := [("v0", { endpointFlows := [] })],
    policyBridges := [] }

def epC5dup : Endpoint :=
  { InterfaceName := "veth9", IPAddr := [], IPv6Addr := [], PortNo := 11,
    MacAddrStr := "aa:bb:cc:dd:ee:0b", VlanID := 0, BridgeName := "br0" }

theorem AddLocalEndpoint_duplicate_idempotent_witness :
    DpManager.AddLocalEndpoint stC5 epC5dup = (none, stC5) :=
  AddLocalEndpoint_duplicate_idempotent stC5 epC5dup epC5stored (by rfl)

/-! ### Claim C10: an unmanaged bridge name is a silent no-op -/

/-- Claim C10: `AddLocalEndpoint` with an endpoint whose bridge name matches
no managed VDS bridge name returns a nil error and leaves the registry and
every bridge unchanged — the endpoint is silently not registered. -/
theorem AddLocalEndpoint_unmanaged_bridge_noop (st : DpState) (endpoint : Endpoint)
    (h : ∀ x ∈ st.ManagedVDSMap, x.2 ≠ endpoint.BridgeName) :
    DpManager.AddLocalEndpoint st endpoint = (none, st) := by
  have hf : st.ManagedVDSMap.find? (fun p => p.2 == endpoint.BridgeName) = none := by
    apply List.find?_eq_none.mpr
    intro x hx
    simp [h x hx]
  unfold DpManager.AddLocalEndpoint
  rw [hf]

def epC10 : Endpoint :=
  { InterfaceName := "vethX", IPAddr := [], IPv6Addr := [], PortNo := 3,
    MacAddrStr := "aa:bb:cc:dd:ee:0a", VlanID := 0, BridgeName := "brX" }

def stC10 : DpState :=
  { ManagedVDSMap := [("v0", "br0"), ("v1", "br1")],
    localEndpointDB := [],
    Rules := [],
    localBridges := [("v0", { endpointFlows := [] }), ("v1", { endpointFlows := [] })],
    policyBridges := [] }

theorem AddLocalEndpoint_unmanaged_bridge_noop_witness :
    DpManager.AddLocalEndpoint stC10 epC10 = (none, stC10) :=
  AddLocalEndpoint_unmanaged_bridge_noop stC10 epC10 (by decide)

/-! ### Claim C7 (corrected): round numbers are 64-bit, so the increment wraps -/

def roundOverflowIds : List (String × String) :=
  [(datapathRestartRound, "18446744073709551615")]

/-- Claim C7 counterexample: with the stored round number 2^64 - 1 (the
largest value `strconv.ParseUint` accepts), `getRoundInfo` returns
`curRoundNum = 0`, which is not `previousRoundNum + 1`: the uint64
increment wraps around. -/
theorem getRoundInfo_overflow_cex :
    getRoundInfo roundOverflowIds =
      Except.ok { previousRoundNum := 18446744073709551615, curRoundNum := 0 } ∧
    (0 : Nat) ≠ 18446744073709551615 + 1 := by
  constructor
  · rfl
  · decide

/-- Claim C7 (amended): `getRoundInfo` always returns
`curRoundNum = (previousRoundNum + 1) % 2^64` (equal to `previous + 1`
whenever the stored value is below 2^64 - 1); empty external-ids or a
missing `datapathRestartRound` key yield `(previous = 0, current = 1)`; a
key present with parseable decimal value n yields `(n, (n+1) % 2^64)`; an
unparseable value yields an error. -/
theorem getRoundInfo_amended :
    (∀ (ids : List (String × String)) (r : RoundInfo),
        getRoundInfo ids = Except.ok r →
        r.curRoundNum = (r.previousRoundNum + 1) % 2 ^ 64) ∧
    getRoundInfo [] = Except.ok { previousRoundNum := 0, curRoundNum := 1 } ∧
    (∀ ids : List (String × String), ids ≠ [] →
        alistGet ids datapathRestartRound = none →
        getRoundInfo ids = Except.ok { previousRoundNum := 0, curRoundNum := 1 }) ∧
    (∀ (ids : List (String × String)) (s : String) (n : Nat),
        alistGet ids datapathRestartRound = some s → parseUint64 s = some n →
        getRoundInfo ids = Except.ok { previousRoundNum := n, curRoundNum := (n + 1) % 2 ^ 64 }) ∧
    (∀ (ids : List (String × String)) (s : String),
        alistGet ids datapathRestartRound = some s → parseUint64 s = none →
        getRoundInfo ids = Except.error "bad format of round number") := by
  refine ⟨?_, rfl, ?_, ?_, ?_⟩
  · intro ids r h
    unfold getRoundInfo at h
    split at h
    · cases h
      decide
    · split at h
      · cases h
        decide
      · split at h
        · cases h
        · cases h
          rfl
  · intro ids hne hget
    cases ids with
    | nil => exact absurd rfl hne
    | cons a l => simp [getRoundInfo, hget]
  · intro ids s n hget hparse
    cases ids with
    | nil => simp [alistGet] at hget
    | cons a l => simp [getRoundInfo, hget, hparse]
  · intro ids s hget hparse
    cases ids with
    | nil => simp [alistGet] at hget
    | cons a l => simp [getRoundInfo, hget, hparse]

theorem getRoundInfo_amended_witness :
    getRoundInfo [(datapathRestartRound, "3")] =
      Except.ok { previousRoundNum := 3, curRoundNum := (3 + 1) % 2 ^ 64 } ∧
    getRoundInfo [(datapathRestartRound, "years")] =
      Except.error "bad format of round number" :=
  ⟨getRoundInfo_amended.2.2.2.1 [(datapathRestartRound, "3")] "3" 3 (by rfl) (by rfl),
   getRoundInfo_amended.2.2.2.2 [(datapathRestartRound, "years")] "years" (by rfl) (by rfl)⟩

/-! ### Claim C8 (corrected): the unknown-rule check lives inside the VDS loop -/

def ruleRX : EveroutePolicyRule :=
  { RuleID := "RX", Priority := 80, SrcIPAddr := "", DstIPAddr := "", IPProtocol := 0,
    SrcPort := 0, SrcPortMask := 0, DstPort := 0, DstPortMask := 0, Action := "allow" }

def emptyVDSState : DpState :=
  { ManagedVDSMap := [], localEndpointDB := [], Rules := [],
    localBridges := [], policyBridges := [] }

/-- Claim C8 counterexample: with zero managed VDSes the per-VDS loop body
of `RemoveEveroutePolicyRule` never runs, so the unknown-rule check is
skipped: removing a rule whose id is not in the registry returns success
(a nil error), not an error as the claim states. -/
theorem RemoveEveroutePolicyRule_noVDS_cex :
    alistGet emptyVDSState.Rules ruleRX.RuleID = none ∧
    DpManager.RemoveEveroutePolicyRule emptyVDSState ruleRX = (none, emptyVDSState) := by
  exact ⟨rfl, rfl⟩

/-- Claim C8 (amended): when at least one VDS is managed,
`RemoveEveroutePolicyRule` on a rule whose id is not in the Rules registry
returns an error and changes nothing; with zero managed VDSes it returns
success while still deleting nothing. -/
theorem RemoveEveroutePolicyRule_unknown_amended :
    (∀ (st : DpState) (rule : EveroutePolicyRule),
        st.ManagedVDSMap ≠ [] → alistGet st.Rules rule.RuleID = none →
        DpManager.RemoveEveroutePolicyRule st rule =
          (some "rule not found when deleting", st)) ∧
    (∀ (st : DpState) (rule : EveroutePolicyRule),
        st.ManagedVDSMap = [] →
        DpManager.RemoveEveroutePolicyRule st rule =
          (none, { st with Rules := alistRemove st.Rules rule.RuleID })) := by
  constructor
  · intro st rule hvds hget
    unfold DpManager.RemoveEveroutePolicyRule
    cases hm : st.ManagedVDSMap with
    | nil => exact absurd hm hvds
    | cons v rest =>
      cases v with
      | mk vdsID br => simp [removeRuleLoop, hget]
  · intro st rule hvds
    obtain ⟨m, db, rules, lb, pb⟩ := st
    simp only at hvds
    subst hvds
    rfl

def stC8 : DpState :=
  { ManagedVDSMap := [("v0", "br0")], localEndpointDB := [], Rules := [],
    localBridges := [("v0", { endpointFlows := [] })],
    policyBridges := [("v0", { installedFlows := [], nextFlowId := 0 })] }

theorem RemoveEveroutePolicyRule_unknown_amended_witness :
    DpManager.RemoveEveroutePolicyRule stC8 ruleRX =
      (some "rule not found when deleting", stC8) :=
  RemoveEveroutePolicyRule_unknown_amended.1 stC8 ruleRX (by decide) (by rfl)

/-! ### Claim C9: an unknown direction yields nil tables and a nil error -/

/-- Claim C9: for every tier, `GetTierTable` with a direction other than 0
(egress) or 1 (ingress) returns nil for both the policy table and the next
table together with a nil error, so `AddMicroSegmentRule` with such a
direction (and parseable or absent IPs) proceeds to the nil-table
dereference at `NewFlow` rather than failing with the malformed-rule
error. -/
theorem GetTierTable_unknown_direction_nil (direction tier : Nat)
    (p : PolicyBridgeState) (rule : EveroutePolicyRule)
    (h0 : direction ≠ 0) (h1 : direction ≠ 1)
    (hdst : rule.DstIPAddr = "" ∨ ∃ v, ParseIPAddrMaskString rule.DstIPAddr = Except.ok v)
    (hsrc : rule.SrcIPAddr = "" ∨ ∃ v, ParseIPAddrMaskString rule.SrcIPAddr = Except.ok v) :
    GetTierTable direction tier = Except.ok (none, none) ∧
    PolicyBridge.AddMicroSegmentRule p rule direction tier = (AMSOutcome.nilTableDeref, p) := by
  obtain ⟨d, rfl⟩ : ∃ d, direction = d + 2 := by
    rcases direction with _ | _ | d
    · exact absurd rfl h0
    · exact absurd rfl h1
    · exact ⟨d, rfl⟩
  have hg : GetTierTable (d + 2) tier = Except.ok (none, none) := rfl
  refine ⟨hg, ?_⟩
  obtain ⟨⟨da, dam⟩, hD⟩ := parseOptIPField_ok _ hdst
  obtain ⟨⟨sa, sam⟩, hS⟩ := parseOptIPField_ok _ hsrc
  unfold PolicyBridge.AddMicroSegmentRule
  rw [hg, hD, hS]

def ruleNoIPs : EveroutePolicyRule :=
  { RuleID := "R-noip", Priority := 50, SrcIPAddr := "", DstIPAddr := "", IPProtocol := 0,
    SrcPort := 0, SrcPortMask := 0, DstPort := 0, DstPortMask := 0, Action := "allow" }

def pbEmpty : PolicyBridgeState := { installedFlows := [], nextFlowId := 0 }

theorem GetTierTable_unknown_direction_nil_witness :
    GetTierTable 2 100 = Except.ok (none, none) ∧
    PolicyBridge.AddMicroSegmentRule pbEmpty ruleNoIPs 2 100 =
      (AMSOutcome.nilTableDeref, pbEmpty) :=
  GetTierTable_unknown_direction_nil 2 100 pbEmpty ruleNoIPs (by decide) (by decide)
    (Or.inl rfl) (Or.inl rfl)

/-! ### Core lemmas about AddMicroSegmentRule -/

theorem AMS_ok_core (p : PolicyBridgeState) (rule : EveroutePolicyRule)
    (direction tier pt nt : Nat)
    (hg : GetTierTable direction tier = Except.ok (some pt, some nt))
    (hact : rule.Action = "allow" ∨ rule.Action = "deny")
    (hdst : rule.DstIPAddr = "" ∨ ∃ v, ParseIPAddrMaskString rule.DstIPAddr = Except.ok v)
    (hsrc : rule.SrcIPAddr = "" ∨ ∃ v, ParseIPAddrMaskString rule.SrcIPAddr = Except.ok v) :
    ∃ (st' : PolicyBridgeState) (f : InstalledFlow),
      PolicyBridge.AddMicroSegmentRule p rule direction tier =
        (AMSOutcome.ok { TableId := pt, Priority := rule.Priority % 2 ^ 16,
                         FlowID := p.nextFlowId }, st') ∧
      st'.installedFlows = p.installedFlows ++ [f] ∧
      f.tableId = pt ∧ f.priority = rule.Priority % 2 ^ 16 ∧ f.flowId = p.nextFlowId ∧
      f.target = (if rule.Action = "allow" then FlowTarget.toTable nt else FlowTarget.drop) := by
  obtain ⟨⟨da, dam⟩, hD⟩ := parseOptIPField_ok _ hdst
  obtain ⟨⟨sa, sam⟩, hS⟩ := parseOptIPField_ok _ hsrc
  unfold PolicyBridge.AddMicroSegmentRule
  rcases hact with ha | ha
  · simp only [hg, hD, hS, ha]
    exact ⟨_, _, rfl, rfl, rfl, rfl, rfl, rfl⟩
  · simp only [hg, hD, hS, ha]
    exact ⟨_, _, rfl, rfl, rfl, rfl, rfl, rfl⟩

theorem AMS_err_core (p : PolicyBridgeState) (rule : EveroutePolicyRule)
    (direction tier pt nt : Nat)
    (hg : GetTierTable direction tier = Except.ok (some pt, some nt))
    (hmal : (rule.DstIPAddr ≠ "" ∧ ∃ e, ParseIPAddrMaskString rule.DstIPAddr = Except.error e) ∨
            (rule.SrcIPAddr ≠ "" ∧ ∃ e, ParseIPAddrMaskString rule.SrcIPAddr = Except.error e) ∨
            (rule.Action ≠ "allow" ∧ rule.Action ≠ "deny")) :
    ∃ msg st', PolicyBridge.AddMicroSegmentRule p rule direction tier =
        (AMSOutcome.err msg, st') ∧
      st'.installedFlows = p.installedFlows := by
  rcases hmal with ⟨hne, e, he⟩ | hrest
  · have hD := parseOptIPField_error _ e hne he
    refine ⟨e, p, ?_, rfl⟩
    unfold PolicyBridge.AddMicroSegmentRule
    simp only [hg, hD]
  · cases hD : parseOptIPField rule.DstIPAddr with
    | error e =>
      refine ⟨e, p, ?_, rfl⟩
      unfold PolicyBridge.AddMicroSegmentRule
      simp only [hg, hD]
    | ok prD =>
      obtain ⟨da, dam⟩ := prD
      rcases hrest with ⟨hne, e, he⟩ | ⟨ha1, ha2⟩
      · have hS := parseOptIPField_error _ e hne he
        refine ⟨e, p, ?_, rfl⟩
        unfold PolicyBridge.AddMicroSegmentRule
        simp only [hg, hD, hS]
      · cases hS : parseOptIPField rule.SrcIPAddr with
        | error e =>
          refine ⟨e, p, ?_, rfl⟩
          unfold PolicyBridge.AddMicroSegmentRule
          simp only [hg, hD, hS]
        | ok prS =>
          obtain ⟨sa, sam⟩ := prS
          have hb1 : (rule.Action == "allow") = false := by simp [ha1]
          have hb2 : (rule.Action == "deny") = false := by simp [ha2]
          refine ⟨"unknown action in rule", { p with nextFlowId := p.nextFlowId + 1 }, ?_, rfl⟩
          unfold PolicyBridge.AddMicroSegmentRule
          simp [hg, hD, hS, hb1, hb2]

/-! ### Claim C2: well-formed rules install one flow in the tier table -/

/-- Claim C2: for a well-formed rule (action allow or deny, parseable or
absent IPs, priority within uint16) with direction egress (0) or ingress
(1) and tier in 50/100/150, `AddMicroSegmentRule` installs exactly one flow
in that direction's tier table with the rule's priority; the resolved next
table is the same direction's tier-1 table for tier 0 and the CT_COMMIT
table 70 for tiers 1 and 2; for action allow the flow's target is that next
table, for deny it is the drop action; and the returned `FlowEntry` carries
the tier table, the rule's priority and the allocated flow id. -/
theorem AddMicroSegmentRule_wellformed_installs (p : PolicyBridgeState)
    (rule : EveroutePolicyRule) (direction tier : Nat)
    (hd : direction = 0 ∨ direction = 1)
    (ht : tier = POLICY_TIER0 ∨ tier = POLICY_TIER1 ∨ tier = POLICY_TIER2)
    (hact : rule.Action = "allow" ∨ rule.Action = "deny")
    (hdst : rule.DstIPAddr = "" ∨ ∃ v, ParseIPAddrMaskString rule.DstIPAddr = Except.ok v)
    (hsrc : rule.SrcIPAddr = "" ∨ ∃ v, ParseIPAddrMaskString rule.SrcIPAddr = Except.ok v)
    (hprio : rule.Priority < 2 ^ 16) :
    ∃ (pt nt : Nat) (st' : PolicyBridgeState) (f : InstalledFlow),
      GetTierTable direction tier = Except.ok (some pt, some nt) ∧
      nt = (if tier = POLICY_TIER0 then
              (if direction = 0 then EGRESS_TIER1_TABLE else INGRESS_TIER1_TABLE)
            else CT_COMMIT_TABLE) ∧
      PolicyBridge.AddMicroSegmentRule p rule direction tier =
        (AMSOutcome.ok { TableId := pt, Priority := rule.Priority,
                         FlowID := p.nextFlowId }, st') ∧
      st'.installedFlows = p.installedFlows ++ [f] ∧
      f.tableId = pt ∧ f.priority = rule.Priority ∧ f.flowId = p.nextFlowId ∧
      f.target = (if rule.Action = "allow" then FlowTarget.toTable nt else FlowTarget.drop) := by
  have hmod : rule.Priority % 2 ^ 16 = rule.Priority := Nat.mod_eq_of_lt hprio
  rcases hd with rfl | rfl <;> rcases ht with rfl | rfl | rfl
  · obtain ⟨st', f, h1, h2, h4, h5, h6, h7⟩ :=
      AMS_ok_core p rule 0 POLICY_TIER0 EGRESS_TIER0_TABLE EGRESS_TIER1_TABLE rfl hact hdst hsrc
    rw [hmod] at h1 h5
    exact ⟨_, _, st', f, rfl, by decide, h1, h2, h4, h5, h6, h7⟩
  · obtain ⟨st', f, h1, h2, h4, h5, h6, h7⟩ :=
      AMS_ok_core p rule 0 POLICY_TIER1 EGRESS_TIER1_TABLE CT_COMMIT_TABLE rfl hact hdst hsrc
    rw [hmod] at h1 h5
    exact ⟨_, _, st', f, rfl, by decide, h1, h2, h4, h5, h6, h7⟩
  · obtain ⟨st', f, h1, h2, h4, h5, h6, h7⟩ :=
      AMS_ok_core p rule 0 POLICY_TIER2 EGRESS_TIER2_TABLE CT_COMMIT_TABLE rfl hact hdst hsrc
    rw [hmod] at h1 h5
    exact ⟨_, _, st', f, rfl, by decide, h1, h2, h4, h5, h6, h7⟩
  · obtain ⟨st', f, h1, h2, h4, h5, h6, h7⟩ :=
      AMS_ok_core p rule 1 POLICY_TIER0 INGRESS_TIER0_TABLE INGRESS_TIER1_TABLE rfl hact hdst hsrc
    rw [hmod] at h1 h5
    exact ⟨_, _, st', f, rfl, by decide, h1, h2, h4, h5, h6, h7⟩
  · obtain ⟨st', f, h1, h2, h4, h5, h6, h7⟩ :=
      AMS_ok_core p rule 1 POLICY_TIER1 INGRESS_TIER1_TABLE CT_COMMIT_TABLE rfl hact hdst hsrc
    rw [hmod] at h1 h5
    exact ⟨_, _, st', f, rfl, by decide, h1, h2, h4, h5, h6, h7⟩
  · obtain ⟨st', f, h1, h2, h4, h5, h6, h7⟩ :=
      AMS_ok_core p rule 1 POLICY_TIER2 INGRESS_TIER2_TABLE CT_COMMIT_TABLE rfl hact hdst hsrc
    rw [hmod] at h1 h5
    exact ⟨_, _, st', f, rfl, by decide, h1, h2, h4, h5, h6, h7⟩

def ruleR1 : EveroutePolicyRule :=
  { RuleID := "R1", Priority := 80, SrcIPAddr := "10.0.0.0/24", DstIPAddr := "10.0.1.5",
    IPProtocol := 6, SrcPort := 0, SrcPortMask := 0, DstPort := 80, DstPortMask := 0,
    Action := "allow" }

theorem AddMicroSegmentRule_wellformed_installs_witness :
    ∃ (pt nt : Nat) (st' : PolicyBridgeState) (f : InstalledFlow),
      GetTierTable 0 POLICY_TIER1 = Except.ok (some pt, some nt) ∧
      nt = (if POLICY_TIER1 = POLICY_TIER0 then
              (if (0 : Nat) = 0 then EGRESS_TIER1_TABLE else INGRESS_TIER1_TABLE)
            else CT_COMMIT_TABLE) ∧
      PolicyBridge.AddMicroSegmentRule pbEmpty ruleR1 0 POLICY_TIER1 =
        (AMSOutcome.ok { TableId := pt, Priority := ruleR1.Priority,
                         FlowID := pbEmpty.nextFlowId }, st') ∧
      st'.installedFlows = pbEmpty.installedFlows ++ [f] ∧
      f.tableId = pt ∧ f.priority = ruleR1.Priority ∧ f.flowId = pbEmpty.nextFlowId ∧
      f.target = (if ruleR1.Action = "allow" then FlowTarget.toTable nt else FlowTarget.drop) :=
  AddMicroSegmentRule_wellformed_installs pbEmpty ruleR1 0 POLICY_TIER1 (Or.inl rfl)
    (Or.inr (Or.inl rfl)) (Or.inl rfl)
    (Or.inr ⟨(⟨10, 0, 1, 5⟩, ⟨255, 255, 255, 255⟩), by rfl⟩)
    (Or.inr ⟨(⟨10, 0, 0, 0⟩, ⟨255, 255, 255, 0⟩), by rfl⟩)
    (by decide)

/-! ### Claim C6: malformed rules error before any flow is installed -/

/-- Claim C6: for a direction in 0/1 and a malformed rule — an unknown tier,
a src or dst IP string that fails to parse, or an action that is neither
allow nor deny — `AddMicroSegmentRule` returns an error and the set of
flows installed on the policy bridge is unchanged. -/
theorem AddMicroSegmentRule_malformed_error (p : PolicyBridgeState)
    (rule : EveroutePolicyRule) (direction tier : Nat)
    (hd : direction = 0 ∨ direction = 1)
    (hmal : ¬(tier = POLICY_TIER0 ∨ tier = POLICY_TIER1 ∨ tier = POLICY_TIER2) ∨
            (rule.DstIPAddr ≠ "" ∧ ∃ e, ParseIPAddrMaskString rule.DstIPAddr = Except.error e) ∨
            (rule.SrcIPAddr ≠ "" ∧ ∃ e, ParseIPAddrMaskString rule.SrcIPAddr = Except.error e) ∨
            (rule.Action ≠ "allow" ∧ rule.Action ≠ "deny")) :
    ∃ msg st', PolicyBridge.AddMicroSegmentRule p rule direction tier =
        (AMSOutcome.err msg, st') ∧
      st'.installedFlows = p.installedFlows := by
  by_cases ht : tier = POLICY_TIER0 ∨ tier = POLICY_TIER1 ∨ tier = POLICY_TIER2
  · have hgx : ∃ pt nt, GetTierTable direction tier = Except.ok (some pt, some nt) := by
      rcases hd with rfl | rfl <;> rcases ht with rfl | rfl | rfl <;> exact ⟨_, _, rfl⟩
    obtain ⟨pt, nt, hg⟩ := hgx
    rcases hmal with hbad | hrest
    · exact absurd ht hbad
    · exact AMS_err_core p rule direction tier pt nt hg hrest
  · have hg : GetTierTable direction tier = Except.error "unknow policy tier" := by
      push_neg at ht
      obtain ⟨h1, h2, h3⟩ := ht
      rcases hd with rfl | rfl <;>
        simp [GetTierTable, h1, h2, h3]
    refine ⟨"failed get policy table", p, ?_, rfl⟩
    unfold PolicyBridge.AddMicroSegmentRule
    simp only [hg]

def ruleBadDst : EveroutePolicyRule :=
  { RuleID := "R-bad", Priority := 80, SrcIPAddr := "", DstIPAddr := "not-an-ip",
    IPProtocol := 6, SrcPort := 0, SrcPortMask := 0, DstPort := 0, DstPortMask := 0,
    Action := "allow" }

theorem AddMicroSegmentRule_malformed_error_witness :
    ∃ msg st', PolicyBridge.AddMicroSegmentRule pbEmpty ruleBadDst 0 POLICY_TIER1 =
        (AMSOutcome.err msg, st') ∧
      st'.installedFlows = pbEmpty.installedFlows :=
  AddMicroSegmentRule_malformed_error pbEmpty ruleBadDst 0 POLICY_TIER1 (Or.inl rfl)
    (Or.inr (Or.inl ⟨by decide, "failed to parse ip address", by rfl⟩))

/-! ### Claim C3 (corrected): UpdateLocalEndpoint changes state on one error path -/

def epOldC3 : Endpoint :=
  { InterfaceName := "eth0", IPAddr := [10, 0, 0, 1], IPv6Addr := [], PortNo := 1,
    MacAddrStr := "aa:bb:cc:dd:ee:10", VlanID := 0, BridgeName := "br0" }

def epOtherC3 : Endpoint :=
  { InterfaceName := "eth1", IPAddr := [], IPv6Addr := [], PortNo := 2,
    MacAddrStr := "aa:bb:cc:dd:ee:11", VlanID := 0, BridgeName := "br0" }

def newC3 : Endpoint :=
  { InterfaceName := "eth1", IPAddr := [], IPv6Addr := [], PortNo := 3,
    MacAddrStr := "aa:bb:cc:dd:ee:12", VlanID := 0, BridgeName := "br0" }

def epMissingC3 : Endpoint :=
  { InterfaceName := "ethZ", IPAddr := [], IPv6Addr := [], PortNo := 4,
    MacAddrStr := "aa:bb:cc:dd:ee:13", VlanID := 0, BridgeName := "br0" }

def stC3 : DpState :=
  { ManagedVDSMap := [("v0", "br0")],
    localEndpointDB := [("eth0", epOldC3), ("eth1", epOtherC3)],
    Rules := [],
    localBridges := [("v0", { endpointFlows := [] })],
    policyBridges := [] }

/-- Claim C3 counterexample: with endpoints eth0 and eth1 both registered,
`UpdateLocalEndpoint` of eth0 to the already-registered name eth1 returns
the duplicate-new-name error, yet the registry no longer contains eth0: the
old endpoint was removed before the check, so the claim's "no state change
on error" is false. -/
theorem UpdateLocalEndpoint_error_state_change_cex :
    (DpManager.UpdateLocalEndpoint stC3 newC3 epOldC3).1 =
      some "new local endpoint already exists" ∧
    (DpManager.UpdateLocalEndpoint stC3 newC3 epOldC3).2.localEndpointDB ≠
      stC3.localEndpointDB := by
  constructor
  · rfl
  · decide

/-- Claim C3 (amended): `UpdateLocalEndpoint` copies the learned IP from the
registered old endpoint into the new one, removes the old endpoint, then
adds the new one.  When the old endpoint is missing it returns an error
with the state unchanged; but when the new endpoint's interface name is
already registered, the error is returned only after the old endpoint has
been removed from the registry and the LOCAL bridge, so the state does
change on that error path. -/
theorem UpdateLocalEndpoint_amended :
    (∀ (st : DpState) (newE oldE : Endpoint) (vdsID br : String),
        st.ManagedVDSMap.find? (fun p => p.2 == newE.BridgeName) = some (vdsID, br) →
        alistGet st.localEndpointDB oldE.InterfaceName = none →
        DpManager.UpdateLocalEndpoint st newE oldE =
          (some "old local endpoint not found", st)) ∧
    (∀ (st : DpState) (newE oldE : Endpoint) (vdsID br : String) (ep : Endpoint),
        st.ManagedVDSMap.find? (fun p => p.2 == newE.BridgeName) = some (vdsID, br) →
        alistGet st.localEndpointDB oldE.InterfaceName = some ep →
        alistGet (alistRemove st.localEndpointDB oldE.InterfaceName) newE.InterfaceName = none →
        DpManager.UpdateLocalEndpoint st newE oldE =
          (none,
           { st with
             localEndpointDB :=
               alistSet (alistRemove st.localEndpointDB oldE.InterfaceName)
                 newE.InterfaceName { newE with IPAddr := ep.IPAddr },
             localBridges :=
               alistUpdate
                 (alistUpdate st.localBridges vdsID
                   (fun b => LocalBridge.RemoveLocalEndpoint b oldE))
                 vdsID
                 (fun b => LocalBridge.AddLocalEndpoint b { newE with IPAddr := ep.IPAddr }) })) ∧
    (∀ (st : DpState) (newE oldE : Endpoint) (vdsID br : String) (ep epN : Endpoint),
        st.ManagedVDSMap.find? (fun p => p.2 == newE.BridgeName) = some (vdsID, br) →
        alistGet st.localEndpointDB oldE.InterfaceName = some ep →
        alistGet (alistRemove st.localEndpointDB oldE.InterfaceName) newE.InterfaceName = some epN →
        DpManager.UpdateLocalEndpoint st newE oldE =
          (some "new local endpoint already exists",
           { st with
             localEndpointDB := alistRemove st.localEndpointDB oldE.InterfaceName,
             localBridges :=
               alistUpdate st.localBridges vdsID
                 (fun b => LocalBridge.RemoveLocalEndpoint b oldE) })) := by
  refine ⟨?_, ?_, ?_⟩
  · intro st newE oldE vdsID br hfind hget
    unfold DpManager.UpdateLocalEndpoint
    simp only [hfind, hget]
  · intro st newE oldE vdsID br ep hfind hget hnew
    unfold DpManager.UpdateLocalEndpoint
    simp only [hfind, hget, updateLocalBridge]
    simp only [hnew, Option.isSome_none, Bool.false_eq_true, if_false]
  · intro st newE oldE vdsID br ep epN hfind hget hnew
    unfold DpManager.UpdateLocalEndpoint
    simp only [hfind, hget, updateLocalBridge]
    simp only [hnew, Option.isSome_some, if_true]

theorem UpdateLocalEndpoint_amended_witness :
    DpManager.UpdateLocalEndpoint stC3 newC3 epMissingC3 =
      (some "old local endpoint not found", stC3) ∧
    DpManager.UpdateLocalEndpoint stC3 newC3 epOldC3 =
      (some "new local endpoint already exists",
       { stC3 with
         localEndpointDB := alistRemove stC3.localEndpointDB epOldC3.InterfaceName,
         localBridges :=
           alistUpdate stC3.localBridges "v0"
             (fun b => LocalBridge.RemoveLocalEndpoint b epOldC3) }) :=
  ⟨UpdateLocalEndpoint_amended.1 stC3 newC3 epMissingC3 "v0" "br0" (by rfl) (by rfl),
   UpdateLocalEndpoint_amended.2.2 stC3 newC3 epOldC3 "v0" "br0" epOldC3 epOtherC3
     (by rfl) (by rfl) (by rfl)⟩

/-! ### Claim C4: AddEveroutePolicyRule is idempotent on deep-equal input -/

theorem addRule_present_same_noop (st : DpState) (rule : EveroutePolicyRule)
    (direction tier : Nat) (entry : EveroutePolicyRuleEntry)
    (hget : alistGet st.Rules rule.RuleID = some entry)
    (hsame : RuleIsSame entry.EveroutePolicyRule rule = true) :
    DpManager.AddEveroutePolicyRule st rule direction tier = (none, st) := by
  unfold DpManager.AddEveroutePolicyRule
  simp only [hget, hsame, if_true]

theorem addRuleInstall_none (st st' : DpState) (rule : EveroutePolicyRule) (d t : Nat)
    (h : addRuleInstall st rule d t = (none, st')) :
    ∃ fm, alistGet st'.Rules rule.RuleID =
      some { EveroutePolicyRule := rule, Direction := d, Tier := t, RuleFlowMap := fm } := by
  unfold addRuleInstall at h
  cases hl : installRuleLoop rule d t st.ManagedVDSMap st [] with
  | mk e rest =>
    cases rest with
    | mk st1 fm =>
      rw [hl] at h
      cases e with
      | some msg => simp at h
      | none =>
        injection h with h1 h2
        refine ⟨fm, ?_⟩
        rw [← h2]
        exact alistGet_alistSet_self _ _ _

theorem addRule_ok_of_ok (st st' : DpState) (rule : EveroutePolicyRule) (d t : Nat)
    (h : DpManager.AddEveroutePolicyRule st rule d t = (none, st')) :
    DpManager.AddEveroutePolicyRule st' rule d t = (none, st') := by
  unfold DpManager.AddEveroutePolicyRule at h
  cases hget : alistGet st.Rules rule.RuleID with
  | some entry =>
    simp only [hget] at h
    by_cases hsame : RuleIsSame entry.EveroutePolicyRule rule = true
    · rw [if_pos hsame] at h
      injection h with h1 h2
      subst h2
      exact addRule_present_same_noop st rule d t entry hget hsame
    · rw [if_neg hsame] at h
      obtain ⟨fm, hst⟩ := addRuleInstall_none st st' rule d t h
      exact addRule_present_same_noop st' rule d t _ hst (by simp [RuleIsSame])
  | none =>
    simp only [hget] at h
    obtain ⟨fm, hst⟩ := addRuleInstall_none st st' rule d t h
    exact addRule_present_same_noop st' rule d t _ hst (by simp [RuleIsSame])

/-- Claim C4: `AddEveroutePolicyRule` is idempotent on deep-equal input:
when a rule with the same id is registered and deep-equal to the argument,
the call returns success and the whole state (registries and all bridges)
is unchanged; consequently a second `Add` of the same rule after any
successful `Add` leaves the state of the first call untouched. -/
theorem AddEveroutePolicyRule_idempotent :
    (∀ (st : DpState) (rule : EveroutePolicyRule) (direction tier : Nat)
        (entry : EveroutePolicyRuleEntry),
        alistGet st.Rules rule.RuleID = some entry →
        RuleIsSame entry.EveroutePolicyRule rule = true →
        DpManager.AddEveroutePolicyRule st rule direction tier = (none, st)) ∧
    (∀ (st st' : DpState) (rule : EveroutePolicyRule) (direction tier : Nat),
        DpManager.AddEveroutePolicyRule st rule direction tier = (none, st') →
        DpManager.AddEveroutePolicyRule st' rule direction tier = (none, st')) :=
  ⟨addRule_present_same_noop, addRule_ok_of_ok⟩

def stC4 : DpState :=
  { ManagedVDSMap := [("v0", "br0")], localEndpointDB := [], Rules := [],
    localBridges := [("v0", { endpointFlows := [] })],
    policyBridges := [("v0", { installedFlows := [], nextFlowId := 0 })] }

def ruleC4 : EveroutePolicyRule :=
  { RuleID := "R-idem", Priority := 80, SrcIPAddr := "", DstIPAddr := "10.0.1.5",
    IPProtocol := 6, SrcPort := 0, SrcPortMask := 0, DstPort := 80, DstPortMask := 0,
    Action := "allow" }

theorem AddEveroutePolicyRule_idempotent_witness :
    DpManager.AddEveroutePolicyRule
        (DpManager.AddEveroutePolicyRule stC4 ruleC4 0 POLICY_TIER1).2 ruleC4 0 POLICY_TIER1 =
      (none, (DpManager.AddEveroutePolicyRule stC4 ruleC4 0 POLICY_TIER1).2) :=
  AddEveroutePolicyRule_idempotent.2 stC4
    (DpManager.AddEveroutePolicyRule stC4 ruleC4 0 POLICY_TIER1).2 ruleC4 0 POLICY_TIER1
    (by decide)

end Everoute
